import Mathlib

/-!
Shallow embedding of the ultrabuild repository core, for checking the
specification's claims against the code.

Modelling conventions:
* JavaScript `Map<string, V>` is modelled as an association list
  `List (String × V)` in insertion order; `Map.set` on a fresh key appends,
  on an existing key replaces the value in place; `map.keys().next().value`
  is the head key, and deleting it drops the head entry.
* Machine numbers that only ever hold integers are `Nat`/`Int`; JavaScript
  floating point arithmetic on prices, confidences and rates is modelled
  over `Rat` (the operations used -- sum, product, division, max -- are
  exact in the source's value ranges).
* External collaborators (axios HTTP calls, execSync process calls, the AI
  orchestrator) are opaque: each call site takes an `Except String _`
  outcome or an oracle function as an explicit argument, covering every
  possible behaviour of the collaborator, including thrown errors.
* The regular-expression primitive `code.match(re)` is modelled as an
  abstract matcher `Nat → String → List String` (regex id ↦ list of
  matches, `[]` for JavaScript `null`), since the claims about the scanner
  are independent of the regex semantics.
-/

/-! ## Capacity-bounded insertion-order store

Embeds the recurring pattern
`store.set(key, value); if (store.size > max) store.delete(store.keys().next().value)`
from `deployment-engine.ts` (capacity 5000), the project engine
(capacity 10000) and the self-healer history (capacity 10000). -/

/-- Keys of an association-list store, in insertion order. -/
def storeKeys {α : Type} (store : List (String × α)) : List String :=
  store.map Prod.fst

/-- JavaScript `Map.set`: replace in place when the key is present,
append otherwise. -/
def mapSet {α : Type} (store : List (String × α)) (k : String) (v : α) :
    List (String × α) :=
  if k ∈ storeKeys store then
    store.map (fun p => if p.1 = k then (k, v) else p)
  else
    store ++ [(k, v)]

/-- `if (store.size > cap) store.delete(store.keys().next().value)`:
drop the oldest-inserted entry when over capacity. -/
def evictIfOver {α : Type} (cap : Nat) (store : List (String × α)) :
    List (String × α) :=
  if cap < store.length then store.tail else store

/-- One insert-then-evict step, as performed after each deploy /
generate / heal call. -/
def boundedInsert {α : Type} (cap : Nat) (store : List (String × α))
    (k : String) (v : α) : List (String × α) :=
  evictIfOver cap (mapSet store k v)

/-- Sequential runs of insert-then-evict steps. -/
def insertAll {α : Type} (cap : Nat) (store : List (String × α))
    (kvs : List (String × α)) : List (String × α) :=
  kvs.foldl (fun s kv => boundedInsert cap s kv.1 kv.2) store

/-! ## Deployment engine (`src/lib/deployers/deployment-engine.ts`) -/

/-- `DeploymentTarget = 'vercel' | 'github' | 'docker' | 'aws'`. -/
inductive DeploymentTarget : Type
  | vercel
  | github
  | docker
  | aws
deriving DecidableEq, Repr

/-- `DeploymentConfig` (environment/build/start options omitted: they are
only forwarded to the opaque external calls). -/
structure DeploymentConfig : Type where
  projectName : String
  projectId : String
  target : DeploymentTarget
  files : List (String × String)
deriving DecidableEq, Repr

/-- `DeploymentResult`. -/
structure DeploymentResult : Type where
  success : Bool
  url : Option String := none
  deploymentId : Option String := none
  logs : Option String := none
  timestamp : Int
  duration : Int
deriving DecidableEq, Repr

/-- Data extracted from a successful Vercel API response
(`response.data.url`, `response.data.id`). -/
structure VercelResp : Type where
  url : String
  id : String
deriving DecidableEq, Repr

/-- Data extracted from a successful GitHub API response
(`html_url`, `clone_url`, `id`). -/
structure GitHubResp : Type where
  htmlUrl : String
  cloneUrl : String
  id : String
deriving DecidableEq, Repr

/-- Outcomes of the external side effects a single `deploy` call may
perform, one field per target.  `Except.error m` covers any exception
thrown inside the per-target `try` block (file writing, process
execution, HTTP call), carrying the exception message. -/
structure DeployExt : Type where
  vercel : Except String VercelResp
  github : Except String GitHubResp
  docker : Except String String
  aws : Except String Unit

/-- `deployToVercel`: fails fast when the token is empty, otherwise maps
the external outcome to the uniform result shape.  `now` stands for
`Date.now()`. -/
def deployToVercel (vercelToken : String) (ext : Except String VercelResp)
    (now : Int) : DeploymentResult :=
  if vercelToken = "" then
    { success := false, logs := some "Vercel token not configured",
      timestamp := now, duration := 0 }
  else
    match ext with
    | .ok resp =>
        { success := true, url := some ("https://" ++ resp.url),
          deploymentId := some resp.id,
          logs := some ("Deployed to https://" ++ resp.url),
          timestamp := now, duration := 0 }
    | .error msg =>
        { success := false,
          logs := some ("Vercel deployment failed: " ++ msg),
          timestamp := now, duration := 0 }

/-- `deployToGitHub`: fails fast when the token is empty, otherwise maps
the external outcome to the uniform result shape. -/
def deployToGitHub (githubToken : String) (ext : Except String GitHubResp)
    (now : Int) : DeploymentResult :=
  if githubToken = "" then
    { success := false, logs := some "GitHub token not configured",
      timestamp := now, duration := 0 }
  else
    match ext with
    | .ok resp =>
        { success := true, url := some resp.htmlUrl,
          deploymentId := some resp.id,
          logs := some ("Repository created at " ++ resp.htmlUrl),
          timestamp := now, duration := 0 }
    | .error msg =>
        { success := false,
          logs := some ("GitHub deployment failed: " ++ msg),
          timestamp := now, duration := 0 }

/-- `deployToDocker`: no credential check; the external outcome carries
the container id on success. -/
def deployToDocker (ext : Except String String) (now : Int) :
    DeploymentResult :=
  match ext with
  | .ok containerId =>
      { success := true, url := some "http://localhost:3000",
        deploymentId := some containerId,
        logs := some ("Docker container running: " ++ containerId),
        timestamp := now, duration := 0 }
  | .error msg =>
      { success := false,
        logs := some ("Docker deployment failed: " ++ msg),
        timestamp := now, duration := 0 }

/-- `deployToAWS`: only the scratch-directory write can throw. -/
def deployToAWS (ext : Except String Unit) (now : Int) : DeploymentResult :=
  match ext with
  | .ok _ =>
      { success := true,
        url := some "https://your-app.elasticbeanstalk.com",
        logs := some "AWS deployment configured. Use 'eb create' to deploy.",
        timestamp := now, duration := 0 }
  | .error msg =>
      { success := false,
        logs := some ("AWS deployment failed: " ++ msg),
        timestamp := now, duration := 0 }

/-- `private readonly maxDeployments: number = 5000`. -/
def maxDeployments : Nat := 5000

/-- `deploy`: dispatch on the target, stamp duration and timestamp, and
record the result in the bounded store.  `depId` is the generated
deployment id, `t0`/`t1` the `Date.now()` readings at entry and after the
per-target call.  The per-target procedures catch internally and the
`switch` is exhaustive over `DeploymentTarget`, so the outer
`catch` branch of the source (which returns without storing) is
unreachable for well-typed calls and has no counterpart here. -/
def deploy (vercelToken githubToken : String)
    (deployments : List (String × DeploymentResult))
    (config : DeploymentConfig) (depId : String) (ext : DeployExt)
    (t0 t1 : Int) :
    DeploymentResult × List (String × DeploymentResult) :=
  let r0 : DeploymentResult :=
    match config.target with
    | .vercel => deployToVercel vercelToken ext.vercel t1
    | .github => deployToGitHub githubToken ext.github t1
    | .docker => deployToDocker ext.docker t1
    | .aws => deployToAWS ext.aws t1
  let result : DeploymentResult :=
    { r0 with duration := t1 - t0, timestamp := t1 }
  (result, boundedInsert maxDeployments deployments depId result)

/-- Shape of the `getStatus` return value. -/
structure DeployStatus : Type where
  totalDeployments : Nat
  successful : Nat
  failed : Nat
  successRate : Rat
deriving DecidableEq, Repr

/-- `getStatus`.  In the source `successRate` is
`(successful / size) * 100 || 0`: for an empty store the division yields
`NaN` and `|| 0` turns it into `0`; for a non-empty store the value is an
ordinary number and `|| 0` maps `0` to `0` and is the identity otherwise,
so the embedding guards only the empty case. -/
def getStatus (deployments : List (String × DeploymentResult)) :
    DeployStatus :=
  let successful := (deployments.filter (fun p => p.2.success)).length
  { totalDeployments := deployments.length
    successful := successful
    failed := deployments.length - successful
    successRate :=
      if deployments.length = 0 then 0
      else ((successful : Rat) / (deployments.length : Rat)) * 100 }

/-! ## ULTRABUILD core engine (`src/unnamed/part_001`, `ULTRABUILDEngine`)

`ProjectType` is a string union in the source; `selectTechStack` indexes
`Record<ProjectType, TechStack>` with it and falls back to the `other`
entry via `|| this.techStackTemplates.other`, so the type is modelled as
a plain `String` to keep that runtime fallback observable. -/

/-- `TechStack`: six optional arrays of technology names. -/
structure TechStack : Type where
  frontend : Option (List String) := none
  backend : Option (List String) := none
  database : Option (List String) := none
  deployment : Option (List String) := none
  tools : Option (List String) := none
  libraries : Option (List String) := none
deriving DecidableEq, Repr

/-- `ProjectRequirement` (optional `constraints` omitted: unused by the
modelled operations). -/
structure ProjectRequirement : Type where
  name : String
  description : String
  ptype : String
  features : List String
deriving DecidableEq, Repr

/-- Analysis record flowing from `analyzeRequirement` into
`selectTechStack`.  An external `response.data` is arbitrary JSON, so
every field is optional; the local fallback fills them all. -/
structure Analysis : Type where
  complexity : Option String := none
  features : Option (List String) := none
  estimatedFiles : Option Int := none
  estimatedLines : Option Int := none
deriving DecidableEq, Repr

/-- `estimateComplexity`: feature-count thresholds. -/
def estimateComplexity (requirement : ProjectRequirement) : String :=
  let featureCount := requirement.features.length
  if featureCount ≤ 3 then "simple"
  else if featureCount ≤ 8 then "medium"
  else if featureCount ≤ 15 then "complex"
  else "enterprise"

/-- `analyzeRequirement`: when both Manus credentials are non-empty the
external call is made and its outcome used (`ext` covers success body and
thrown error); otherwise the local fallback record is built.  The `catch`
branch returns the fixed record of the source, lines 257-262. -/
def analyzeRequirement (manusApiUrl manusApiKey : String)
    (requirement : ProjectRequirement) (ext : Except String Analysis) :
    Analysis :=
  if manusApiUrl ≠ "" ∧ manusApiKey ≠ "" then
    match ext with
    | .ok data => data
    | .error _ =>
        { complexity := some "medium"
          features := some requirement.features
          estimatedFiles := some 20
          estimatedLines := some 5000 }
  else
    { complexity := some (estimateComplexity requirement)
      features := some requirement.features
      estimatedFiles := some ((requirement.features.length : Int) * 3 + 10)
      estimatedLines := some ((requirement.features.length : Int) * 500 + 1000) }

/-- `techStackTemplates`: the static catalog, keyed by project type. -/
def techStackTemplates : List (String × TechStack) :=
  [ ("game",
     { frontend := some ["Phaser 3", "Three.js", "Babylon.js"]
       backend := some ["Node.js", "Express"]
       database := some ["Supabase (free)", "Firebase (free)"]
       deployment := some ["Vercel", "GitHub Pages"]
       tools := some ["Webpack", "Vite"]
       libraries := some ["Pixi.js", "Konva.js", "PlayCanvas"] }),
    ("website",
     { frontend := some ["React 19", "Next.js 15", "Vue 3", "Svelte"]
       backend := some ["Node.js", "Express", "Fastify"]
       database := some ["Supabase (free)", "MongoDB (free)", "PostgreSQL (free)"]
       deployment := some ["Vercel", "Netlify", "GitHub Pages"]
       tools := some ["Tailwind CSS 4", "Vite", "Webpack"]
       libraries := some ["shadcn/ui", "Radix UI", "Headless UI"] }),
    ("app",
     { frontend := some ["React Native", "Flutter", "Expo"]
       backend := some ["Node.js", "Express", "Firebase"]
       database := some ["Supabase (free)", "Firebase (free)", "Realm"]
       deployment := some ["Vercel", "Firebase", "AWS (free tier)"]
       tools := some ["Expo", "Android Studio", "Xcode"]
       libraries := some ["React Navigation", "Redux", "Zustand"] }),
    ("ai-system",
     { frontend := some ["React", "Next.js", "Streamlit"]
       backend := some ["Node.js", "Python FastAPI", "Express"]
       database := some ["Supabase (free)", "Pinecone (free)", "Weaviate"]
       deployment := some ["Vercel", "Hugging Face Spaces", "Railway (free)"]
       tools := some ["LangChain", "LlamaIndex", "Transformers.js"]
       libraries := some ["OpenAI SDK", "Anthropic SDK", "Together.ai SDK"] }),
    ("business-software",
     { frontend := some ["React", "Vue", "Angular"]
       backend := some ["Node.js", "Express", "NestJS"]
       database := some ["Supabase (free)", "PostgreSQL (free)", "MySQL (free)"]
       deployment := some ["Vercel", "Railway (free)", "Render (free)"]
       tools := some ["Tailwind", "Vite", "TypeScript"]
       libraries := some ["Tanstack Query", "Zod", "Prisma (free)"] }),
    ("data-tool",
     { frontend := some ["React", "Plotly.js", "D3.js"]
       backend := some ["Node.js", "Python FastAPI", "Express"]
       database := some ["Supabase (free)", "DuckDB", "ClickHouse"]
       deployment := some ["Vercel", "Hugging Face Spaces", "Railway"]
       tools := some ["Pandas", "NumPy", "Polars"]
       libraries := some ["Apache Arrow", "Recharts", "Visx"] }),
    ("security-tool",
     { frontend := some ["React", "Vue"]
       backend := some ["Node.js", "Express", "Rust Actix"]
       database := some ["Supabase (free)", "PostgreSQL (free)"]
       deployment := some ["Vercel", "Railway (free)", "Render (free)"]
       tools := some ["Helmet.js", "OWASP", "Snyk"]
       libraries := some ["Crypto-js", "jsonwebtoken", "bcrypt"] }),
    ("api",
     { backend := some ["Node.js", "Express", "Fastify", "Hono"]
       database := some ["Supabase (free)", "MongoDB (free)", "PostgreSQL (free)"]
       deployment := some ["Vercel", "Railway (free)", "Render (free)"]
       tools := some ["Swagger/OpenAPI", "Jest", "Vitest"]
       libraries := some ["tRPC", "GraphQL", "REST"] }),
    ("cli",
     { backend := some ["Node.js", "Rust", "Go"]
       tools := some ["Commander.js", "Yargs", "Clap"]
       libraries := some ["Chalk", "Inquirer", "Table"]
       deployment := some ["npm", "GitHub Releases"] }),
    ("other",
     { frontend := some ["React", "Vue", "Svelte"]
       backend := some ["Node.js", "Python", "Go"]
       database := some ["Supabase (free)", "PostgreSQL (free)"]
       deployment := some ["Vercel", "Railway (free)"]
       tools := some ["Vite", "Webpack"]
       libraries := some ["TypeScript", "ESLint", "Prettier"] }) ]

/-- The catalog's `other` entry, the fallback of
`this.techStackTemplates[projectType] || this.techStackTemplates.other`. -/
def otherStack : TechStack :=
  { frontend := some ["React", "Vue", "Svelte"]
    backend := some ["Node.js", "Python", "Go"]
    database := some ["Supabase (free)", "PostgreSQL (free)"]
    deployment := some ["Vercel", "Railway (free)"]
    tools := some ["Vite", "Webpack"]
    libraries := some ["TypeScript", "ESLint", "Prettier"] }

/-- Catalog lookup with the `|| other` fallback. -/
def baseStackFor (projectType : String) : TechStack :=
  (techStackTemplates.lookup projectType).getD otherStack

/-- `const complexity = analysis.complexity || 'medium'`: a missing or
empty complexity string is replaced by `"medium"`. -/
def complexityOrDefault (c : Option String) : String :=
  match c with
  | none => "medium"
  | some s => if s = "" then "medium" else s

/-- `selectTechStack`. `analysisComplexity` is the `complexity` field of
the analysis record. -/
def selectTechStack (projectType : String)
    (analysisComplexity : Option String) : TechStack :=
  let baseStack := baseStackFor projectType
  let complexity := complexityOrDefault analysisComplexity
  if complexity = "simple" then
    { frontend := baseStack.frontend.map (fun l => l.take 1)
      backend := baseStack.backend.map (fun l => l.take 1)
      database := baseStack.database.map (fun l => l.take 1)
      deployment := baseStack.deployment.map (fun l => l.take 1)
      tools := baseStack.tools.map (fun l => l.take 2) }
  else if complexity = "enterprise" then
    { frontend := baseStack.frontend
      backend := baseStack.backend
      database := baseStack.database
      deployment := baseStack.deployment
      tools := baseStack.tools
      libraries := baseStack.libraries }
  else
    baseStack

/-! ## Monetization engine (`src/unnamed/part_000`, `MonetizationEngine`) -/

/-- `Template`: a marketplace template record. -/
structure Template : Type where
  id : String
  name : String
  description : String
  price : Rat
  creator : String
  downloads : Int
  rating : Rat
  code : String
deriving DecidableEq, Repr

/-- State of the monetization engine: the template map and the running
revenue counter. -/
structure MonetState : Type where
  templates : List (String × Template)
  revenue : Rat
deriving DecidableEq, Repr

/-- `publishTemplate`: store / overwrite by id, return true. -/
def publishTemplate (st : MonetState) (template : Template) :
    Bool × MonetState :=
  (true, { st with templates := mapSet st.templates template.id template })

/-- `purchaseTemplate`: `false` on unknown id, leaving the state intact;
otherwise add the price to revenue and bump the stored template's
download counter in place (`template.downloads++` mutates the object
held in the map), returning `true`. -/
def purchaseTemplate (st : MonetState) (templateId : String)
    (buyerId : String) : Bool × MonetState :=
  match st.templates.lookup templateId with
  | none => (false, st)
  | some template =>
      (true,
       { templates :=
           st.templates.map (fun p =>
             if p.1 = templateId then
               (p.1, { p.2 with downloads := p.2.downloads + 1 })
             else p)
         revenue := st.revenue + template.price })

/-- `getRevenue`. -/
def getRevenue (st : MonetState) : Rat := st.revenue

/-! ## Self-healer (`src/lib/healers/self-healer.ts`)

The scanner's regexes are runtime primitives; each is given an id and the
primitive `code.match(regex)` is an abstract matcher argument
`Matcher : Nat → String → List String` returning the list of matches of
regex `rid` in the string (`[]` for JavaScript `null`; a JavaScript
global match never returns an empty array).  Every theorem below holds
for every matcher, so it holds in particular for the actual regex
engine. -/

/-- One `(regex, message)` table row; `rid` identifies the regex. -/
structure ScanPattern : Type where
  rid : Nat
  message : String
deriving DecidableEq, Repr

/-- The abstract `code.match` primitive. -/
def Matcher : Type := Nat → String → List String

/-- A finding: `CodeError` (the optional `line`/`column`/`suggestion`
fields are never set by the scanner and are omitted). -/
structure CodeError : Type where
  etype : String
  severity : String
  message : String
  code : String
deriving DecidableEq, Repr

/-- The syntax-group table (regex ids 0-3). -/
def syntaxPatterns : List ScanPattern :=
  [⟨0, "Nested braces detected"⟩,
   ⟨1, "Nested parentheses detected"⟩,
   ⟨2, "Missing semicolon"⟩,
   ⟨3, "Empty function parameters"⟩]

/-- The type-group table (regex ids 4-6). -/
def typePatterns : List ScanPattern :=
  [⟨4, "Use of \"any\" type detected"⟩,
   ⟨5, "Potentially undefined value"⟩,
   ⟨6, "Type assertion used - consider better typing"⟩]

/-- The logic-group table (regex ids 7-11). -/
def logicPatterns : List ScanPattern :=
  [⟨7, "Condition always true"⟩,
   ⟨8, "Condition always false"⟩,
   ⟨9, "Infinite loop detected"⟩,
   ⟨10, "Use === instead of =="⟩,
   ⟨11, "Use const/let instead of var"⟩]

/-- The security-group table (regex ids 12-16). -/
def securityPatterns : List ScanPattern :=
  [⟨12, "eval() is dangerous"⟩,
   ⟨13, "innerHTML can cause XSS"⟩,
   ⟨14, "dangerouslySetInnerHTML can cause XSS"⟩,
   ⟨15, "Ensure env vars are not exposed"⟩,
   ⟨16, "Hardcoded password detected"⟩]

/-- The performance-group table (regex ids 17-20). -/
def performancePatterns : List ScanPattern :=
  [⟨17, "Chain map and filter for better performance"⟩,
   ⟨18, "Consider using forEach or map"⟩,
   ⟨19, "JSON.stringify can be slow on large objects"⟩,
   ⟨20, "setTimeout with 0ms is inefficient"⟩]

/-- The shared per-group loop:
`for (const pattern of patterns) { const matches = code.match(...); if (matches) errors.push({type, severity, message, code: matches[0]}) }`. -/
def scanGroup (m : Matcher) (etype severity : String)
    (patterns : List ScanPattern) (code : String) : List CodeError :=
  patterns.foldl
    (fun errs p =>
      match m p.rid code with
      | [] => errs
      | x :: _ =>
          errs ++ [{ etype := etype, severity := severity,
                     message := p.message, code := x }])
    []

/-- `scanSyntaxErrors` (the `language` argument is unused in the source). -/
def scanSyntaxErrors (m : Matcher) (code language : String) :
    List CodeError :=
  scanGroup m "syntax" "high" syntaxPatterns code

/-- `scanTypeErrors`: early return unless the language is typescript. -/
def scanTypeErrors (m : Matcher) (code language : String) :
    List CodeError :=
  if language ≠ "typescript" then []
  else scanGroup m "type" "medium" typePatterns code

/-- `scanLogicErrors`. -/
def scanLogicErrors (m : Matcher) (code language : String) :
    List CodeError :=
  scanGroup m "logic" "high" logicPatterns code

/-- `scanSecurityIssues`. -/
def scanSecurityIssues (m : Matcher) (code language : String) :
    List CodeError :=
  scanGroup m "security" "critical" securityPatterns code

/-- `scanPerformanceIssues`. -/
def scanPerformanceIssues (m : Matcher) (code language : String) :
    List CodeError :=
  scanGroup m "performance" "low" performancePatterns code

/-- `scanCode`: the five groups in fixed order. -/
def scanCode (m : Matcher) (code language : String) : List CodeError :=
  scanSyntaxErrors m code language
    ++ scanTypeErrors m code language
    ++ scanLogicErrors m code language
    ++ scanSecurityIssues m code language
    ++ scanPerformanceIssues m code language

/-- `validateCode`: rescan and score. -/
def validateCode (m : Matcher) (code language : String) : Rat :=
  let errors := scanCode m code language
  if errors.length = 0 then 1
  else max 0 (1 - (errors.length : Rat) * (1 / 10))

/-- `HealingResult` (the stored history map is keyed by a generated id;
the record itself is what the claims are about). -/
structure HealingResult : Type where
  original : String
  healed : String
  errorsFound : List CodeError
  errorsFix : Nat
  confidence : Rat
  timestamp : Int
deriving DecidableEq, Repr

/-- The fix loop of `healCode`.  `oracle i` is the effective outcome of
the `i`-th `fixError` call: `some s` when the AI call returned a truthy
response `s`, `none` when it threw (caught and skipped) or returned a
falsy response (in which case `fixError` returns the current code, so
nothing changes either way).  A returned string is adopted and counted
only when it differs from the current code. -/
def healLoop (oracle : Nat → Option String) :
    List CodeError → Nat → String → Nat → String × Nat
  | [], _, healed, cnt => (healed, cnt)
  | _ :: rest, i, healed, cnt =>
      match oracle i with
      | none => healLoop oracle rest (i + 1) healed cnt
      | some s =>
          if s = healed then healLoop oracle rest (i + 1) healed cnt
          else healLoop oracle rest (i + 1) s (cnt + 1)

/-- `healCode`: scan, short-circuit on a clean scan, otherwise run the
fix loop and validate.  `t` stands for the `Date.now()` reading. -/
def healCode (m : Matcher) (oracle : Nat → Option String)
    (code language : String) (t : Int) : HealingResult :=
  let errors := scanCode m code language
  if errors.length = 0 then
    { original := code, healed := code, errorsFound := [],
      errorsFix := 0, confidence := 1, timestamp := t }
  else
    let hc := healLoop oracle errors 0 code 0
    { original := code, healed := hc.1, errorsFound := errors,
      errorsFix := hc.2,
      confidence := validateCode m hc.1 language, timestamp := t }

/-! ## Store lemmas -/

/-- Setting a fresh key appends the entry. -/
theorem mapSet_fresh {α : Type} (store : List (String × α)) (k : String)
    (v : α) (hk : k ∉ storeKeys store) :
    mapSet store k v = store ++ [(k, v)] := by
  simp [mapSet, hk]

/-- Inserting a fresh key into a store strictly under capacity appends
without eviction. -/
theorem boundedInsert_under {α : Type} {cap : Nat}
    (store : List (String × α)) (k : String) (v : α)
    (hk : k ∉ storeKeys store) (hlen : store.length < cap) :
    boundedInsert cap store k v = store ++ [(k, v)] := by
  rw [boundedInsert, mapSet_fresh store k v hk, evictIfOver, if_neg]
  simp
  omega

/-- Inserting a fresh key into a store exactly at capacity appends and
evicts the oldest entry. -/
theorem boundedInsert_at_cap {α : Type} {cap : Nat}
    (store : List (String × α)) (k : String) (v : α)
    (hk : k ∉ storeKeys store) (hcap : 1 ≤ cap)
    (hlen : store.length = cap) :
    boundedInsert cap store k v = store.tail ++ [(k, v)] := by
  rw [boundedInsert, mapSet_fresh store k v hk, evictIfOver, if_pos]
  · cases store with
    | nil => simp at hlen; omega
    | cons a t => simp
  · simp
    omega

/-- A single insert-then-evict step never leaves the store above
capacity. -/
theorem boundedInsert_length_le {α : Type} (cap : Nat)
    (store : List (String × α)) (k : String) (v : α)
    (h : store.length ≤ cap) :
    (boundedInsert cap store k v).length ≤ cap := by
  by_cases hk : k ∈ storeKeys store
  · rw [boundedInsert, mapSet, if_pos hk, evictIfOver]
    by_cases hover :
        cap < (store.map fun p => if p.1 = k then (k, v) else p).length
    · rw [if_pos hover]
      have ht := List.length_tail
        (store.map fun p => if p.1 = k then (k, v) else p)
      simp at hover ⊢
      omega
    · rw [if_neg hover]
      simp at hover ⊢
      omega
  · rw [boundedInsert, mapSet, if_neg hk, evictIfOver]
    by_cases hover : cap < (store ++ [(k, v)]).length
    · rw [if_pos hover]
      have ht := List.length_tail (store ++ [(k, v)])
      simp at hover ⊢
      omega
    · rw [if_neg hover]
      simp at hover ⊢
      omega

/-- As long as the run fits under capacity, sequential inserts of fresh
distinct keys just append. -/
theorem insertAll_no_evict {α : Type} {cap : Nat} :
    ∀ (kvs : List (String × α)) (store : List (String × α)),
      (storeKeys store ++ kvs.map Prod.fst).Nodup →
      store.length + kvs.length ≤ cap →
      insertAll cap store kvs = store ++ kvs
  | [], store, _, _ => by simp [insertAll]
  | kv :: rest, store, hnd, hlen => by
      have hsplit := List.nodup_append.mp hnd
      have hk : kv.1 ∉ storeKeys store := by
        intro hmem
        exact hsplit.2.2 hmem (by simp)
      have hstep : boundedInsert cap store kv.1 kv.2 = store ++ [kv] := by
        have hunder : store.length < cap := by simp at hlen; omega
        have := @boundedInsert_under α cap store kv.1 kv.2 hk hunder
        simpa using this
      have hnd' : (storeKeys (store ++ [kv]) ++ rest.map Prod.fst).Nodup := by
        have hkeys : storeKeys (store ++ [kv]) = storeKeys store ++ [kv.1] := by
          simp [storeKeys]
        rw [hkeys, List.append_assoc]
        simpa using hnd
      have hlen' : (store ++ [kv]).length + rest.length ≤ cap := by
        simp at hlen ⊢
        omega
      calc insertAll cap store (kv :: rest)
          = insertAll cap (store ++ [kv]) rest := by
            simp [insertAll, hstep]
        _ = (store ++ [kv]) ++ rest := insertAll_no_evict rest (store ++ [kv]) hnd' hlen'
        _ = store ++ kv :: rest := by simp

/-! ## Claims about the bounded stores -/

/-- C4: for a bounded store of capacity `cap` (deployments 5000,
projects 10000, healing history 10000), sequentially inserting `cap + 1`
records with pairwise-distinct fresh keys starting from the empty store
leaves exactly the last `cap` records: the store holds `cap` entries and
the first-inserted key is absent.  Moreover a single insert-then-evict
step never leaves any store above its capacity. -/
theorem boundedStore_evicts_first_inserted {α : Type} (cap : Nat)
    (kv0 : String × α) (rest : List (String × α)) (hcap : 1 ≤ cap)
    (hnd : ((kv0 :: rest).map Prod.fst).Nodup)
    (hlen : (kv0 :: rest).length = cap + 1) :
    insertAll cap [] (kv0 :: rest) = rest ∧
    (insertAll cap [] (kv0 :: rest)).length = cap ∧
    kv0.1 ∉ storeKeys (insertAll cap [] (kv0 :: rest)) ∧
    ∀ (store : List (String × α)) (k : String) (v : α),
      store.length ≤ cap → (boundedInsert cap store k v).length ≤ cap := by
  have hrestlen : rest.length = cap := by simp at hlen; omega
  have hrest_ne : rest ≠ [] := by
    intro h
    rw [h] at hrestlen
    simp at hrestlen
    omega
  obtain ⟨front, lastkv, hfr⟩ :
      ∃ front lastkv, rest = front ++ [lastkv] := by
    rcases List.eq_nil_or_concat rest with h | ⟨l, a, h⟩
    · exact absurd h hrest_ne
    · exact ⟨l, a, by simpa [List.concat_eq_append] using h⟩
  subst hfr
  have hfrontlen : front.length + 1 = cap := by
    simpa using hrestlen
  have hnd_front : (storeKeys ([] : List (String × α))
      ++ (kv0 :: front).map Prod.fst).Nodup := by
    have : ((kv0 :: front).map Prod.fst
        ++ [lastkv.1]).Nodup := by
      simpa [List.map_append] using hnd
    simpa [storeKeys] using this.of_append_left
  have hfirst : insertAll cap [] (kv0 :: front) = kv0 :: front := by
    have := @insertAll_no_evict α cap (kv0 :: front) [] hnd_front
      (by simp; omega)
    simpa using this
  have hlast_fresh : lastkv.1 ∉ storeKeys (kv0 :: front) := by
    intro hmem
    have hsplit := List.nodup_append.mp
      (by simpa [List.map_append] using hnd :
        ((kv0 :: front).map Prod.fst ++ [lastkv.1]).Nodup)
    exact hsplit.2.2 (by simpa [storeKeys] using hmem) (by simp)
  have hmain : insertAll cap [] ((kv0 :: front) ++ [lastkv])
      = front ++ [lastkv] := by
    rw [insertAll, List.foldl_append]
    have hfold : List.foldl
        (fun s kv => boundedInsert cap s kv.1 kv.2) [] (kv0 :: front)
        = kv0 :: front := hfirst
    rw [hfold]
    simp only [List.foldl_cons, List.foldl_nil]
    have := @boundedInsert_at_cap α cap (kv0 :: front) lastkv.1 lastkv.2
      hlast_fresh hcap (by simp; omega)
    simpa using this
  have hmain' : insertAll cap [] (kv0 :: (front ++ [lastkv]))
      = front ++ [lastkv] := by
    rw [show kv0 :: (front ++ [lastkv]) = (kv0 :: front) ++ [lastkv] from
      (List.cons_append kv0 front [lastkv]).symm]
    exact hmain
  refine ⟨hmain', by rw [hmain']; simpa using hrestlen, ?_, ?_⟩
  · rw [hmain']
    intro hmem
    have hnd' : (kv0.1 :: (front ++ [lastkv]).map Prod.fst).Nodup := by
      simpa using hnd
    exact (List.nodup_cons.mp hnd').1 (by simpa [storeKeys] using hmem)
  · intro store k v h
    exact boundedInsert_length_le cap store k v h

/-- C4 witness: capacity 2, three distinct records. -/
theorem boundedStore_evicts_first_inserted_witness :
    insertAll 2 [] [("a", (0 : Nat)), ("b", 1), ("c", 2)]
      = [("b", 1), ("c", 2)] ∧
    (insertAll 2 [] [("a", (0 : Nat)), ("b", 1), ("c", 2)]).length = 2 ∧
    "a" ∉ storeKeys (insertAll 2 [] [("a", (0 : Nat)), ("b", 1), ("c", 2)]) := by
  have h := boundedStore_evicts_first_inserted 2 ("a", (0 : Nat))
    [("b", 1), ("c", 2)] (by decide) (by decide) (by decide)
  exact ⟨h.1, h.2.1, h.2.2.1⟩

/-- C1: every `deploy` call, whatever the target and whatever the external
outcome (so for success and for failure results alike), appends its
result to the bounded deployments store (capacity 5000), evicting the
oldest-inserted entry exactly when the store is full.  The embedding is a
total function, so no call throws. -/
theorem deploy_always_records_result (vt gt : String)
    (deployments : List (String × DeploymentResult))
    (config : DeploymentConfig) (depId : String) (ext : DeployExt)
    (t0 t1 : Int) (hfresh : depId ∉ storeKeys deployments)
    (hbound : deployments.length ≤ maxDeployments) :
    (deploy vt gt deployments config depId ext t0 t1).2 =
      if deployments.length < maxDeployments
      then deployments
        ++ [(depId, (deploy vt gt deployments config depId ext t0 t1).1)]
      else deployments.tail
        ++ [(depId, (deploy vt gt deployments config depId ext t0 t1).1)] := by
  have hsnd : (deploy vt gt deployments config depId ext t0 t1).2
      = boundedInsert maxDeployments deployments depId
          (deploy vt gt deployments config depId ext t0 t1).1 := rfl
  rw [hsnd]
  by_cases hlt : deployments.length < maxDeployments
  · rw [if_pos hlt, boundedInsert_under _ _ _ hfresh hlt]
  · rw [if_neg hlt,
      boundedInsert_at_cap _ _ _ hfresh (by decide) (by omega)]

/-- C1 witness: a failing Vercel deployment on an empty store is
recorded. -/
theorem deploy_always_records_result_witness :
    "d1" ∉ storeKeys ([] : List (String × DeploymentResult)) ∧
    (deploy "" "" [] ⟨"p", "pid", .vercel, []⟩ "d1"
        ⟨.error "boom", .error "boom", .error "boom", .ok ()⟩ 0 5).2
      = [("d1", (deploy "" "" [] ⟨"p", "pid", .vercel, []⟩ "d1"
          ⟨.error "boom", .error "boom", .error "boom", .ok ()⟩ 0 5).1)] := by
  have h := deploy_always_records_result "" "" [] ⟨"p", "pid", .vercel, []⟩
    "d1" ⟨.error "boom", .error "boom", .error "boom", .ok ()⟩ 0 5
    (by decide) (by decide)
  refine ⟨by decide, ?_⟩
  rw [h, if_pos (by decide)]
  simp

/-- C3: when the target's required credential is absent (empty Vercel
token for `vercel`, empty GitHub token for `github`), `deploy` returns a
result with `success = false` whose log contains "not configured"; the
embedding is a total function, so the call never throws. -/
theorem deploy_missing_token_fails_with_not_configured (vt gt : String)
    (deployments : List (String × DeploymentResult))
    (config : DeploymentConfig) (depId : String) (ext : DeployExt)
    (t0 t1 : Int)
    (h : (config.target = DeploymentTarget.vercel ∧ vt = "") ∨
         (config.target = DeploymentTarget.github ∧ gt = "")) :
    (deploy vt gt deployments config depId ext t0 t1).1.success = false ∧
    ∃ pre post : String,
      (deploy vt gt deployments config depId ext t0 t1).1.logs
        = some (pre ++ "not configured" ++ post) := by
  rcases h with ⟨htgt, htok⟩ | ⟨htgt, htok⟩
  · refine ⟨?_, "Vercel token ", "", ?_⟩
    · simp [deploy, htgt, deployToVercel, htok]
    · simp [deploy, htgt, deployToVercel, htok]
  · refine ⟨?_, "GitHub token ", "", ?_⟩
    · simp [deploy, htgt, deployToGitHub, htok]
    · simp [deploy, htgt, deployToGitHub, htok]

/-- C3 witness: deploying to Vercel with an empty token. -/
theorem deploy_missing_token_fails_with_not_configured_witness :
    (deploy "" "tok" [] ⟨"p", "pid", .vercel, []⟩ "d"
        ⟨.ok ⟨"u", "i"⟩, .error "e", .error "e", .ok ()⟩ 0 1).1.success
      = false ∧
    ∃ pre post : String,
      (deploy "" "tok" [] ⟨"p", "pid", .vercel, []⟩ "d"
          ⟨.ok ⟨"u", "i"⟩, .error "e", .error "e", .ok ()⟩ 0 1).1.logs
        = some (pre ++ "not configured" ++ post) :=
  deploy_missing_token_fails_with_not_configured "" "tok" []
    ⟨"p", "pid", .vercel, []⟩ "d" ⟨.ok ⟨"u", "i"⟩, .error "e", .error "e", .ok ()⟩
    0 1 (Or.inl ⟨rfl, rfl⟩)

/-- C10: `getStatus` returns a success rate of 0 on an empty store (the
`|| 0` of the source turns the `NaN` of `0/0` into `0`), and in every
state reports the store size as the total with
`successful + failed = total`. -/
theorem getStatus_successRate_and_totals :
    (getStatus []).successRate = 0 ∧
    ∀ deployments : List (String × DeploymentResult),
      (getStatus deployments).totalDeployments = deployments.length ∧
      (getStatus deployments).successful + (getStatus deployments).failed
        = deployments.length := by
  refine ⟨by simp [getStatus], ?_⟩
  intro d
  refine ⟨rfl, ?_⟩
  have hle : (d.filter (fun p => p.2.success)).length ≤ d.length :=
    List.length_filter_le _ _
  simp [getStatus]
  omega

/-! ## Claims about the project generator -/

/-- C5: the local complexity estimate depends only on the feature-list
length, with thresholds 3 / 8 / 15; in particular feature counts
0, 3, 4, 8, 9, 15, 16 give simple, simple, medium, medium, complex,
complex, enterprise. -/
theorem estimateComplexity_thresholds :
    (∀ r₁ r₂ : ProjectRequirement,
        r₁.features.length = r₂.features.length →
        estimateComplexity r₁ = estimateComplexity r₂) ∧
    (∀ r : ProjectRequirement,
      (r.features.length = 0 → estimateComplexity r = "simple") ∧
      (r.features.length = 3 → estimateComplexity r = "simple") ∧
      (r.features.length = 4 → estimateComplexity r = "medium") ∧
      (r.features.length = 8 → estimateComplexity r = "medium") ∧
      (r.features.length = 9 → estimateComplexity r = "complex") ∧
      (r.features.length = 15 → estimateComplexity r = "complex") ∧
      (r.features.length = 16 → estimateComplexity r = "enterprise")) := by
  constructor
  · intro r₁ r₂ h
    simp only [estimateComplexity, h]
  · intro r
    refine ⟨?_, ?_, ?_, ?_, ?_, ?_, ?_⟩ <;>
      · intro h
        simp [estimateComplexity, h]

/-- C5 witness: two requirements with two features each get the same
estimate, and an empty feature list estimates to simple. -/
theorem estimateComplexity_thresholds_witness :
    estimateComplexity ⟨"a", "d", "other", ["f", "g"]⟩
      = estimateComplexity ⟨"b", "e", "game", ["x", "y"]⟩ ∧
    estimateComplexity ⟨"a", "d", "other", []⟩ = "simple" :=
  ⟨estimateComplexity_thresholds.1 ⟨"a", "d", "other", ["f", "g"]⟩
      ⟨"b", "e", "game", ["x", "y"]⟩ (by decide),
   (estimateComplexity_thresholds.2 ⟨"a", "d", "other", []⟩).1 (by decide)⟩

/-- C2 counterexample: with credentials configured, a requirement with
zero features (local estimate "simple") whose external analysis call
throws gets complexity "medium", not the local feature-count estimate,
refuting the claim that a failing external call falls back to the local
estimate. -/
theorem analyzeRequirement_error_fallback_counterexample :
    (analyzeRequirement "https://api.manus.example" "key"
        ⟨"p", "d", "website", []⟩ (.error "network timeout")).complexity
      = some "medium" ∧
    estimateComplexity ⟨"p", "d", "website", []⟩ = "simple" ∧
    (analyzeRequirement "https://api.manus.example" "key"
        ⟨"p", "d", "website", []⟩ (.error "network timeout")).complexity
      ≠ some (estimateComplexity ⟨"p", "d", "website", []⟩) := by
  refine ⟨by decide, by decide, by decide⟩

/-- C2 amended: when a Manus credential is missing the external call is
skipped and the complexity is the local feature-count estimate; when both
credentials are present and the external call fails (network error or
timeout), the complexity falls back to the fixed string "medium"
instead. -/
theorem analyzeRequirement_fallback_amended (url key : String)
    (r : ProjectRequirement) (ext : Except String Analysis) :
    ((url = "" ∨ key = "") →
      (analyzeRequirement url key r ext).complexity
        = some (estimateComplexity r)) ∧
    (∀ msg : String, url ≠ "" → key ≠ "" → ext = .error msg →
      (analyzeRequirement url key r ext).complexity = some "medium") := by
  constructor
  · intro h
    have hc : ¬(url ≠ "" ∧ key ≠ "") := by
      rcases h with h | h <;> simp [h]
    simp [analyzeRequirement, hc]
  · intro msg hu hk he
    simp [analyzeRequirement, hu, hk, he]

/-- C2 amended witness: missing key gives the local estimate; configured
credentials with a thrown call give "medium". -/
theorem analyzeRequirement_fallback_amended_witness :
    (analyzeRequirement "https://api.manus.example" ""
        ⟨"p", "d", "website", []⟩ (.error "boom")).complexity
      = some (estimateComplexity ⟨"p", "d", "website", []⟩) ∧
    (analyzeRequirement "https://api.manus.example" "key"
        ⟨"p", "d", "website", []⟩ (.error "boom")).complexity
      = some "medium" :=
  ⟨(analyzeRequirement_fallback_amended "https://api.manus.example" ""
      ⟨"p", "d", "website", []⟩ (.error "boom")).1 (Or.inr rfl),
   (analyzeRequirement_fallback_amended "https://api.manus.example" "key"
      ⟨"p", "d", "website", []⟩ (.error "boom")).2 "boom"
      (by decide) (by decide) rfl⟩

/-- C9: tech-stack selection falls back to the catalog's `other` entry
for unknown project types; for complexity "simple" the selected
frontend/backend/database/deployment lists have length at most 1 and
tools at most 2; for "enterprise" the full catalog entry is returned
unmodified; for "medium" and "complex" the catalog entry is returned
as-is. -/
theorem selectTechStack_spec :
    (∀ (p : String) (c : Option String),
        techStackTemplates.lookup p = none →
        selectTechStack p c = selectTechStack "other" c) ∧
    (∀ p : String,
      (∀ l, (selectTechStack p (some "simple")).frontend = some l →
          l.length ≤ 1) ∧
      (∀ l, (selectTechStack p (some "simple")).backend = some l →
          l.length ≤ 1) ∧
      (∀ l, (selectTechStack p (some "simple")).database = some l →
          l.length ≤ 1) ∧
      (∀ l, (selectTechStack p (some "simple")).deployment = some l →
          l.length ≤ 1) ∧
      (∀ l, (selectTechStack p (some "simple")).tools = some l →
          l.length ≤ 2)) ∧
    (∀ p : String, selectTechStack p (some "enterprise") = baseStackFor p) ∧
    (∀ p : String, selectTechStack p (some "medium") = baseStackFor p ∧
        selectTechStack p (some "complex") = baseStackFor p) := by
  refine ⟨?_, ?_, ?_, ?_⟩
  · intro p c h
    have hb : baseStackFor p = baseStackFor "other" := by
      rw [baseStackFor, h]
      rfl
    simp only [selectTechStack, hb]
  · intro p
    refine ⟨?_, ?_, ?_, ?_, ?_⟩ <;>
      · intro l hl
        simp only [selectTechStack, complexityOrDefault] at hl
        norm_num at hl
        rcases Option.map_eq_some'.mp hl with ⟨x, hx, hxl⟩
        rw [← hxl]
        simp [List.length_take]
  · intro p
    simp [selectTechStack, complexityOrDefault]
  · intro p
    constructor <;> simp [selectTechStack, complexityOrDefault]

/-- C9 witness: an unknown project type selects the same stack as
`other`. -/
theorem selectTechStack_spec_witness :
    techStackTemplates.lookup "blog" = none ∧
    selectTechStack "blog" (some "simple")
      = selectTechStack "other" (some "simple") ∧
    (selectTechStack "other" (some "enterprise")) = baseStackFor "other" :=
  ⟨by decide,
   selectTechStack_spec.1 "blog" (some "simple") (by decide),
   selectTechStack_spec.2.2.1 "other"⟩

/-! ## Claims about the monetization ledger -/

/-- Looking up in a map whose entry at `id` was updated in place. -/
theorem lookup_map_entry {α : Type} (f : α → α) (id : String) :
    ∀ (l : List (String × α)) (k : String),
      (l.map (fun p => if p.1 = id then (p.1, f p.2) else p)).lookup k
        = if k = id then (l.lookup k).map f else l.lookup k
  | [], k => by simp
  | (a, b) :: t, k => by
      have ih := lookup_map_entry f id t k
      by_cases hai : a = id
      · by_cases hka : k = a
        · simp [List.lookup_cons, hai, hka, hka.trans hai]
        · have hki : ¬k = id := fun h => hka (h.trans hai.symm)
          have hbeq : (k == a) = false := beq_eq_false_iff_ne.mpr hka
          have hbeq2 : (k == id) = false := beq_eq_false_iff_ne.mpr hki
          simp [List.lookup_cons, hai, hbeq, hbeq2, hki] at ih ⊢
          exact ih
      · by_cases hka : k = a
        · have hki : ¬k = id := fun h => hai (hka.symm.trans h)
          simp [List.lookup_cons, hai, hka, hki]
        · have hbeq : (k == a) = false := beq_eq_false_iff_ne.mpr hka
          simp [List.lookup_cons, hai, hbeq]
          exact ih

/-- C6: purchasing an unknown template id returns false and leaves the
whole state (templates and revenue) unchanged; purchasing a known id
returns true, adds exactly the template's price to the revenue counter,
increments exactly that template's download counter by 1 and leaves
every other id's entry unchanged. -/
theorem purchaseTemplate_spec (st : MonetState) (templateId buyerId : String) :
    (st.templates.lookup templateId = none →
      purchaseTemplate st templateId buyerId = (false, st)) ∧
    ∀ t : Template, st.templates.lookup templateId = some t →
      (purchaseTemplate st templateId buyerId).1 = true ∧
      (purchaseTemplate st templateId buyerId).2.revenue
        = st.revenue + t.price ∧
      (purchaseTemplate st templateId buyerId).2.templates.lookup templateId
        = some { t with downloads := t.downloads + 1 } ∧
      ∀ k, k ≠ templateId →
        (purchaseTemplate st templateId buyerId).2.templates.lookup k
          = st.templates.lookup k := by
  constructor
  · intro h
    simp [purchaseTemplate, h]
  · intro t ht
    refine ⟨?_, ?_, ?_, ?_⟩
    · simp [purchaseTemplate, ht]
    · simp [purchaseTemplate, ht]
    · simp only [purchaseTemplate, ht]
      rw [lookup_map_entry
        (fun v => { v with downloads := v.downloads + 1 }) templateId
        st.templates templateId]
      simp [ht]
    · intro k hk
      simp only [purchaseTemplate, ht]
      rw [lookup_map_entry
        (fun v => { v with downloads := v.downloads + 1 }) templateId
        st.templates k]
      simp [hk]

/-- Concrete template for the C6 witness. -/
def sampleTemplate : Template :=
  { id := "t1", name := "Landing", description := "d", price := 3,
    creator := "c", downloads := 7, rating := 4, code := "x" }

/-- Concrete ledger state for the C6 witness. -/
def sampleLedger : MonetState :=
  { templates := [("t1", sampleTemplate)], revenue := 5 }

/-- C6 witness: a known purchase pays and counts, an unknown one is a
no-op returning false. -/
theorem purchaseTemplate_spec_witness :
    (purchaseTemplate sampleLedger "t1" "buyer").1 = true ∧
    (purchaseTemplate sampleLedger "t1" "buyer").2.revenue = 5 + 3 ∧
    (purchaseTemplate sampleLedger "t1" "buyer").2.templates.lookup "t1"
      = some { sampleTemplate with downloads := 8 } ∧
    purchaseTemplate sampleLedger "zz" "buyer" = (false, sampleLedger) := by
  have h := (purchaseTemplate_spec sampleLedger "t1" "buyer").2
    sampleTemplate (by decide)
  have h0 := (purchaseTemplate_spec sampleLedger "zz" "buyer").1 (by decide)
  exact ⟨h.1, h.2.1, by rw [h.2.2.1]; decide, h0⟩

/-! ## Claims about the code pattern scanner and healer -/

/-- The per-group push loop accumulates exactly a `filterMap`: one
finding per matched pattern. -/
theorem scanGroup_foldl_acc (m : Matcher) (et sv : String) (code : String) :
    ∀ (pats : List ScanPattern) (acc : List CodeError),
      pats.foldl
        (fun errs p =>
          match m p.rid code with
          | [] => errs
          | x :: _ =>
              errs ++ [{ etype := et, severity := sv,
                         message := p.message, code := x }]) acc
        = acc ++ pats.filterMap (fun p =>
            match m p.rid code with
            | [] => none
            | x :: _ => some { etype := et, severity := sv,
                               message := p.message, code := x })
  | [], acc => by simp
  | p :: rest, acc => by
      cases hm : m p.rid code with
      | nil =>
          simp only [List.foldl_cons, List.filterMap_cons, hm]
          exact scanGroup_foldl_acc m et sv code rest acc
      | cons x xs =>
          simp only [List.foldl_cons, List.filterMap_cons, hm]
          exact (scanGroup_foldl_acc m et sv code rest
            (acc ++ [({ etype := et, severity := sv,
                        message := p.message, code := x } : CodeError)])).trans
            (by simp)

/-- `scanGroup` as a `filterMap` over its pattern table. -/
theorem scanGroup_eq_filterMap (m : Matcher) (et sv : String)
    (pats : List ScanPattern) (code : String) :
    scanGroup m et sv pats code
      = pats.filterMap (fun p =>
          match m p.rid code with
          | [] => none
          | x :: _ => some { etype := et, severity := sv,
                             message := p.message, code := x }) := by
  rw [scanGroup, scanGroup_foldl_acc]
  simp

/-- The full pattern table with per-group category and severity; the
type group is present exactly when the language is typescript. -/
def scanPatternTable (language : String) :
    List (String × String × ScanPattern) :=
  syntaxPatterns.map (fun p => ("syntax", "high", p))
    ++ (if language = "typescript"
        then typePatterns.map (fun p => ("type", "medium", p)) else [])
    ++ logicPatterns.map (fun p => ("logic", "high", p))
    ++ securityPatterns.map (fun p => ("security", "critical", p))
    ++ performancePatterns.map (fun p => ("performance", "low", p))

/-- C8: for every matcher behaviour, every code string and every
language, `scanCode` emits exactly one finding per pattern that has at
least one match -- carrying that pattern's message, its group's category
and fixed severity, and the first matched substring -- and none for
unmatched patterns; the type-category group participates exactly when
the language is "typescript", so for any other language no finding has
category "type". -/
theorem scanCode_one_finding_per_pattern (m : Matcher)
    (code language : String) :
    scanCode m code language
      = (scanPatternTable language).filterMap (fun g =>
          match m g.2.2.rid code with
          | [] => none
          | x :: _ => some { etype := g.1, severity := g.2.1,
                             message := g.2.2.message, code := x }) ∧
    ((scanCode m code language).all
      (fun e => (language == "typescript") || (e.etype != "type"))) = true := by
  have hchar : scanCode m code language
      = (scanPatternTable language).filterMap (fun g =>
          match m g.2.2.rid code with
          | [] => none
          | x :: _ => some { etype := g.1, severity := g.2.1,
                             message := g.2.2.message, code := x }) := by
    rw [scanCode, scanPatternTable, scanSyntaxErrors, scanTypeErrors,
      scanLogicErrors, scanSecurityIssues, scanPerformanceIssues]
    by_cases hl : language = "typescript"
    · simp only [hl, ne_eq, not_true_eq_false, if_false, if_true,
        ite_false, ite_true, if_pos]
      rw [scanGroup_eq_filterMap, scanGroup_eq_filterMap,
        scanGroup_eq_filterMap, scanGroup_eq_filterMap,
        scanGroup_eq_filterMap]
      simp only [List.filterMap_append, List.filterMap_map]
      rfl
    · simp only [ne_eq, hl, not_false_eq_true, if_true, ite_true,
        if_false, ite_false, if_neg hl]
      rw [scanGroup_eq_filterMap, scanGroup_eq_filterMap,
        scanGroup_eq_filterMap, scanGroup_eq_filterMap]
      simp only [List.filterMap_append, List.filterMap_map,
        List.filterMap_nil, List.nil_append]
      rfl
  refine ⟨hchar, ?_⟩
  by_cases hl : language = "typescript"
  · subst hl
    simp
  · have htab : ∀ g ∈ scanPatternTable language, g.1 ≠ "type" := by
      simp only [scanPatternTable, if_neg hl]
      decide
    rw [hchar]
    apply List.all_eq_true.mpr
    intro e he
    obtain ⟨g, hg, hge⟩ := List.mem_filterMap.mp he
    have hg1 : g.1 ≠ "type" := htab g hg
    cases hm : m g.2.2.rid code with
    | nil => rw [hm] at hge; exact absurd hge (by simp)
    | cons x xs =>
        rw [hm] at hge
        have he' : e.etype = g.1 := by
          cases hge
          rfl
        have : (e.etype != "type") = true := by
          rw [he']
          exact bne_iff_ne.mpr hg1
        simp [this]

/-- C7: a clean scan makes `healCode` return the input unchanged as both
original and healed, with zero fixes and confidence exactly 1; when
findings exist, the final confidence is 1 when the post-heal rescan is
clean and `max 0 (1 - remaining * 1/10)` otherwise. -/
theorem healCode_clean_and_confidence (m : Matcher)
    (oracle : Nat → Option String) (code lang : String) (t : Int) :
    (scanCode m code lang = [] →
      healCode m oracle code lang t
        = { original := code, healed := code, errorsFound := [],
            errorsFix := 0, confidence := 1, timestamp := t }) ∧
    (scanCode m code lang ≠ [] →
      (healCode m oracle code lang t).confidence
        = if scanCode m (healCode m oracle code lang t).healed lang = []
          then 1
          else max 0 (1 -
            ((scanCode m (healCode m oracle code lang t).healed lang).length
              : Rat) * (1 / 10))) := by
  constructor
  · intro h
    simp [healCode, h]
  · intro h
    have hlen : ¬(scanCode m code lang).length = 0 := by
      simpa [List.length_eq_zero] using h
    have hhe : (healCode m oracle code lang t).healed
        = (healLoop oracle (scanCode m code lang) 0 code 0).1 := by
      simp [healCode, h]
    have hc : (healCode m oracle code lang t).confidence
        = validateCode m
            (healLoop oracle (scanCode m code lang) 0 code 0).1 lang := by
      simp [healCode, h]
    rw [hc, hhe, validateCode]
    by_cases hv :
        scanCode m (healLoop oracle (scanCode m code lang) 0 code 0).1 lang
          = []
    · simp [hv]
    · have hv' : ¬(scanCode m
          (healLoop oracle (scanCode m code lang) 0 code 0).1 lang).length
            = 0 := by
        simpa [List.length_eq_zero] using hv
      simp [hv, hv']

/-- Matcher that never finds anything, for witnesses. -/
def matcherNone : Matcher := fun _ _ => []

/-- Matcher for which every pattern has one match, for witnesses. -/
def matcherAll : Matcher := fun _ _ => ["hit"]

/-- Fix oracle whose AI calls always fail, for witnesses. -/
def oracleNone : Nat → Option String := fun _ => none

/-- C7 witness: a clean scan heals to the identity with confidence 1; a
scan where every pattern matches and no fix call succeeds rescans to 18
findings (language is not typescript) and confidence
`max 0 (1 - 18/10) = 0`. -/
theorem healCode_clean_and_confidence_witness :
    healCode matcherNone oracleNone "let x = 1" "typescript" 0
      = { original := "let x = 1", healed := "let x = 1", errorsFound := [],
          errorsFix := 0, confidence := 1, timestamp := 0 } ∧
    (healCode matcherAll oracleNone "v" "js" 0).confidence = 0 := by
  have h1 := (healCode_clean_and_confidence matcherNone oracleNone
    "let x = 1" "typescript" 0).1 (by decide)
  have h2 := (healCode_clean_and_confidence matcherAll oracleNone
    "v" "js" 0).2 (by decide)
  refine ⟨h1, ?_⟩
  rw [h2, if_neg (by decide)]
  rw [show (scanCode matcherAll
      (healCode matcherAll oracleNone "v" "js" 0).healed "js").length = 18
    from by decide]
  norm_num
